import Mathlib

/-!
Verification of the MindsDB process-supervisor (`mindsdb/__main__.py`):
restart-rate limiting (`TrunkProcessData.request_restart_attempt`),
restart eligibility (`TrunkProcessData.should_restart`), graceful shutdown
(`close_api_gracefully`), orphan reconciliation
(`set_error_model_status_by_pids`) and the startup health gate
(`wait_api_start` / `gather_apis`), shallowly embedded as pure Lean
functions over explicit state.
-/

namespace MindsDB

/-- `signal.SIGKILL.value` on POSIX. -/
def sigkillValue : Int := 9

/-- `signal.SIGTERM.value` on POSIX. -/
def sigtermValue : Int := 15

/-- Embedding of `TrunkProcessData.request_restart_attempt`.

Source (`mindsdb/__main__.py`, lines 85-104):
```
if self.max_restart_count == 0:
    return True
current_time_seconds = int(time.time())
self._restarts_time.append(current_time_seconds)
if self.max_restart_interval_seconds > 0:
    self._restarts_time = [
        x for x in self._restarts_time
        if x >= (current_time_seconds - self.max_restart_interval_seconds)
    ]
if len(self._restarts_time) > self.max_restart_count:
    return False
return True
```
State is passed explicitly: `hist` is `self._restarts_time` before the
call, `now` is `int(time.time())`; the result is the updated
`self._restarts_time` paired with the returned boolean. -/
def request_restart_attempt (max_restart_count max_restart_interval_seconds : Int)
    (hist : List Int) (now : Int) : List Int × Bool :=
  if max_restart_count = 0 then
    (hist, true)
  else
    let hist1 := hist ++ [now]
    let hist2 :=
      if max_restart_interval_seconds > 0 then
        hist1.filter (fun x => x ≥ now - max_restart_interval_seconds)
      else
        hist1
    if hist2.length > max_restart_count then
      (hist2, false)
    else
      (hist2, true)

/-- The history transformation described by the spec's decision rule:
append `now`; if `maxIntervalSeconds > 0`, drop entries older than
`now - maxIntervalSeconds`. -/
def specWindowedHistory (maxIntervalSeconds : Int) (hist : List Int) (now : Int) : List Int :=
  if maxIntervalSeconds > 0 then
    (hist ++ [now]).filter (fun x => x ≥ now - maxIntervalSeconds)
  else
    hist ++ [now]

/-- The spec's wording of the admission rule for C1: admit iff
`maxCount == 0` or the windowed history has length `<= maxCount`. -/
def admitSpec (maxCount maxIntervalSeconds : Int) (hist : List Int) (now : Int) : Prop :=
  maxCount = 0 ∨ (specWindowedHistory maxIntervalSeconds hist now).length ≤ maxCount

instance (maxCount maxIntervalSeconds : Int) (hist : List Int) (now : Int) :
    Decidable (admitSpec maxCount maxIntervalSeconds hist now) := by
  unfold admitSpec; infer_instance

/-- Iterate `request_restart_attempt` over a sequence of attempt times,
threading the `_restarts_time` state exactly as repeated calls on one
descriptor do, collecting each call's boolean result. -/
def runAttempts (maxCount maxInterval : Int) (hist : List Int) :
    List Int → List Int × List Bool
  | [] => (hist, [])
  | t :: ts =>
    let r := request_restart_attempt maxCount maxInterval hist t
    let rest := runAttempts maxCount maxInterval r.1 ts
    (rest.1, r.2 :: rest.2)

/-- Embedding of the `TrunkProcessData.should_restart` property.

Source (`mindsdb/__main__.py`, lines 106-123):
```
if config.is_cloud:
    return False
if sys.platform in ('linux', 'darwin'):
    return self.restart_on_failure and self.process.exitcode == -signal.SIGKILL.value
else:
    if self.max_restart_count == 0:
        logger.warning(...)
        return False
    return self.restart_on_failure
```
`is_cloud` is `config.is_cloud`, `platform` is `sys.platform`, `exitcode`
is `self.process.exitcode`. -/
def should_restart (is_cloud : Bool) (platform : String)
    (restart_on_failure : Bool) (max_restart_count : Int) (exitcode : Int) : Bool :=
  if is_cloud then
    false
  else if platform = "linux" ∨ platform = "darwin" then
    restart_on_failure && decide (exitcode = -sigkillValue)
  else
    if max_restart_count = 0 then
      false
    else
      restart_on_failure

/-- The error psutil raises when a pid has disappeared; it is the only
exception the per-descriptor `try` in `close_api_gracefully` catches. -/
inductive PsError
  | noSuchProcess
deriving DecidableEq

/-- The supervisor's view of one child-process handle (`mp.Process`)
together with the OS-level facts the shutdown path consults: whether the
OS still knows the pid, the reaped exit code (`Process.exitcode`, `some`
once `join` has collected the child), and the live descendant pids that
`get_child_pids` would report. -/
structure ProcHandle where
  pid : Nat
  osAlive : Bool
  exitcode : Option Int
  childPids : List Nat
deriving DecidableEq

/-- Observable actions the shutdown path issues against the OS. -/
inductive ShutdownEvent
  | sigtermChild (pid : Nat)
  | terminateTop (pid : Nat)
  | joinTop (pid : Nat)
deriving DecidableEq

/-- Modelled from the spec: `childProcessIds(pid)` — the
`mindsdb.utilities.ps.get_child_pids` collaborator (its body is not under
`src/`): enumerate descendant OS processes of a pid; psutil raises
`NoSuchProcess` when the process is gone. -/
def get_child_pids (h : ProcHandle) : Except PsError (List Nat) :=
  if h.osAlive then .ok h.childPids else .error .noSuchProcess

/-- Body of the per-descriptor `try:` in `close_api_gracefully`
(`mindsdb/__main__.py`, lines 133-143): enumerate children and SIGTERM
each, then `process.terminate()` and `process.join()`.
`Process.terminate` sends SIGTERM to the top-level process only when it
has not been reaped yet (its `returncode` is still `None`); `join` then
reaps it, after which the pid is gone from the OS table and `exitcode`
is set (for a child killed by this SIGTERM, to `-SIGTERM`). -/
def closeDescriptorRaw (h : ProcHandle) :
    Except PsError (ProcHandle × List ShutdownEvent) :=
  match get_child_pids h with
  | .error e => .error e
  | .ok childs =>
    .ok ({ pid := h.pid, osAlive := false,
           exitcode := some (h.exitcode.getD (-sigtermValue)), childPids := [] },
         childs.map ShutdownEvent.sigtermChild ++
           (match h.exitcode with
            | none => [ShutdownEvent.terminateTop h.pid]
            | some _ => []) ++
           [ShutdownEvent.joinTop h.pid])

/-- One descriptor's step of `close_api_gracefully`, with the
`except psutil.NoSuchProcess: pass` handler applied: a vanished process
is skipped and no error escapes. -/
def closeDescriptor (h : ProcHandle) : ProcHandle × List ShutdownEvent :=
  match closeDescriptorRaw h with
  | .ok r => r
  | .error .noSuchProcess => (h, [])

/-- The state the shutdown coordinator sees: the process-wide
`_stop_event` flag and each descriptor's optional process handle
(`trunc_process_data.process`, `None` when absent). -/
structure SupervisorState where
  stopEvent : Bool
  procs : List (Option ProcHandle)
deriving DecidableEq

/-- The descriptor loop of `close_api_gracefully`: `process is None` is
skipped (`continue`), otherwise the descriptor is closed. -/
def closeAll : List (Option ProcHandle) → List (Option ProcHandle) × List ShutdownEvent
  | [] => ([], [])
  | none :: rest =>
    let r := closeAll rest
    (none :: r.1, r.2)
  | some h :: rest =>
    let d := closeDescriptor h
    let r := closeAll rest
    (some d.1 :: r.1, d.2 ++ r.2)

/-- Embedding of `close_api_gracefully` (`mindsdb/__main__.py`, lines
126-147): set `_stop_event`, then walk every descriptor as `closeAll`
does.  The function's result pairs the new supervisor state with the
sequence of OS actions issued. -/
def close_api_gracefully (s : SupervisorState) : SupervisorState × List ShutdownEvent :=
  let r := closeAll s.procs
  ({ stopEvent := true, procs := r.1 }, r.2)

/-- The `finally:` block of `join_process` (`mindsdb/__main__.py`, lines
531-557) as it executes after the `except KeyboardInterrupt` handler has
already run `close_api_gracefully`: `should_restart` is consulted and, if
it holds, `request_restart_attempt` decides whether `start_process` is
reached. Returns `true` iff a restart is attempted for the descriptor. -/
def restart_attempted_after_interrupt (is_cloud : Bool) (platform : String)
    (restart_on_failure : Bool) (max_restart_count max_restart_interval : Int)
    (hist : List Int) (exitcode : Int) (now : Int) : Bool :=
  if should_restart is_cloud platform restart_on_failure max_restart_count exitcode then
    (request_restart_attempt max_restart_count max_restart_interval hist now).2
  else
    false

/-- The statuses of `db.PREDICTOR_STATUS` as the reconciliation sweep
distinguishes them: `complete` and `error` are the terminal states its
query excludes; the remaining variants stand for the running states. -/
inductive PredictorStatus
  | generating
  | training
  | complete
  | error
deriving DecidableEq

/-- One persisted `db.Predictor` row, restricted to the fields
`set_error_model_status_by_pids` reads and writes: soft deletion
(`deleted_at`), status, the training process id stored in
`training_metadata['process_id']`, and the `data` JSON object modelled as
a key-value list (`none` when `data` is not a dict). -/
structure PredictorRecord where
  deleted : Bool
  status : PredictorStatus
  processId : Option Int
  data : Option (List (String × String))
deriving DecidableEq

/-- The default message the sweep writes. -/
def orphanErrorMessage : String := "The training process was terminated for unknown reasons"

/-- The query filter of `set_error_model_status_by_pids`
(`mindsdb/__main__.py`, lines 158-168): `deleted_at IS NULL` and status
not in `{COMPLETE, ERROR}`. -/
def predictorQueryMatch (r : PredictorRecord) : Bool :=
  !r.deleted && decide (r.status ≠ PredictorStatus.complete) &&
    decide (r.status ≠ PredictorStatus.error)

/-- `'error' in data` for the modelled `data` dict. -/
def hasErrorKey (d : List (String × String)) : Bool :=
  d.any (fun kv => decide (kv.1 = "error"))

/-- Does the record carry a non-empty message under the `'error'` key? -/
def hasNonEmptyErrorMessage (r : PredictorRecord) : Bool :=
  (match r.data with
    | some d => d
    | none => []).any (fun kv => decide (kv.1 = "error") && decide (kv.2 ≠ ""))

/-- Loop body of `set_error_model_status_by_pids` for one record the
query returned: if its training process id is among the orphaned pids,
set status to `ERROR`, coerce a non-dict `data` to `{}`, and store the
default message under `'error'` unless that key is already present. -/
def sweepOne (orphans : List Int) (r : PredictorRecord) : PredictorRecord :=
  if predictorQueryMatch r = true then
    match r.processId with
    | some pid =>
      if pid ∈ orphans then
        let d0 :=
          match r.data with
          | some d => d
          | none => []
        let d1 :=
          if hasErrorKey d0 = true then d0
          else d0 ++ [("error", orphanErrorMessage)]
        { r with status := PredictorStatus.error, data := some d1 }
      else r
    | none => r
  else r

/-- Embedding of `set_error_model_status_by_pids` over the persisted
record set (`mindsdb/__main__.py`, lines 150-178): the query selects the
non-deleted, non-terminal records and the loop repairs those whose
training pid is orphaned; other records are untouched. -/
def set_error_model_status_by_pids (orphans : List Int)
    (recs : List PredictorRecord) : List PredictorRecord :=
  recs.map (sweepOne orphans)

/-- Health-gate timing constants of `wait_api_start`
(`mindsdb/__main__.py`, lines 494-501): `timeout = 60` seconds, one
`asyncio.sleep(0.5)` between checks, hence at most `60 / 0.5 = 120`
re-polls after the immediate first check. -/
def apiStartTimeoutSeconds : Nat := 60

/-- Milliseconds of `asyncio.sleep(0.5)` between two polls. -/
def apiStartPollIntervalMs : Nat := 500

/-- Number of re-polls that fit in the timeout. -/
def apiStartMaxExtraPolls : Nat := apiStartTimeoutSeconds * 1000 / apiStartPollIntervalMs

/-- The polling loop of `wait_api_start`: `listens j` is the value of
`is_pid_listen_port(pid, port)` at the j-th check (checks are half a
second apart); `k` is the current check index and `fuel` the number of
re-polls the deadline still allows. The loop returns the last check's
result, stopping early on the first `true`. -/
def waitLoop (listens : Nat → Bool) : Nat → Nat → Bool
  | k, 0 => listens k
  | k, fuel + 1 => if listens k then true else waitLoop listens (k + 1) fuel

/-- Embedding of `wait_api_start`'s `started` result for one
port-bearing descriptor. -/
def wait_api_start (listens : Nat → Bool) : Bool :=
  waitLoop listens 0 apiStartMaxExtraPolls

/-- What `wait_apis_start` can do with one completed health check
(`mindsdb/__main__.py`, lines 513-518): log success or log an error;
a kill/terminate of the checked process is representable but never
produced, mirroring that the failure branch contains only a log call. -/
inductive StartupAction
  | logStarted (name : String) (port : Int)
  | logCantStart (name : String) (port : Int)
  | terminateApi (name : String)
deriving DecidableEq

/-- The `wait_apis_start` handling of one completed health check. -/
def handle_api_start_result (name : String) (port : Int) (started : Bool) :
    List StartupAction :=
  if started then [StartupAction.logStarted name port]
  else [StartupAction.logCantStart name port]

/-- The descriptor fields `gather_apis` consults when choosing which
descriptors get a monitoring task (`mindsdb/__main__.py`, lines
559-567). -/
structure ApiDescriptor where
  name : String
  need_to_run : Bool
  started : Bool
deriving DecidableEq

/-- The descriptor set `gather_apis` spawns `join_process` monitors for:
exactly those with `need_to_run is True` — health-check outcome is not
consulted. -/
def gather_apis_selection (ds : List ApiDescriptor) : List ApiDescriptor :=
  ds.filter (fun d => d.need_to_run)

/-- The restart-eligibility rule exactly as claim C2 words it:
eligible iff `restartOnFailure` is set, and either the deployment is
non-hosted, or the exit code is the SIGKILL-derived one on a platform
where that signal is distinguishable (linux/darwin). -/
def shouldRestartClaimC2 (is_cloud : Bool) (platform : String)
    (restart_on_failure : Bool) (exitcode : Int) : Bool :=
  restart_on_failure &&
    (!is_cloud ||
      (decide (exitcode = -sigkillValue) &&
        decide (platform = "linux" ∨ platform = "darwin")))

end MindsDB

namespace MindsDB

/-- With a non-zero `max_restart_count`, the updated history computed by
`request_restart_attempt` is exactly the spec's windowed history. -/
theorem request_restart_attempt_fst (maxCount maxInterval : Int)
    (hist : List Int) (now : Int) (h0 : maxCount ≠ 0) :
    (request_restart_attempt maxCount maxInterval hist now).1 =
      specWindowedHistory maxInterval hist now := by
  unfold request_restart_attempt
  rw [if_neg h0]
  show (if (specWindowedHistory maxInterval hist now).length > maxCount
        then (specWindowedHistory maxInterval hist now, false)
        else (specWindowedHistory maxInterval hist now, true)).1 = _
  by_cases hlen : (specWindowedHistory maxInterval hist now).length > maxCount
  · rw [if_pos hlen]
  · rw [if_neg hlen]

/-- With a non-zero `max_restart_count`, the boolean returned by
`request_restart_attempt` is the comparison of the windowed-history length
against `max_restart_count`. -/
theorem request_restart_attempt_snd (maxCount maxInterval : Int)
    (hist : List Int) (now : Int) (h0 : maxCount ≠ 0) :
    (request_restart_attempt maxCount maxInterval hist now).2 =
      decide ((specWindowedHistory maxInterval hist now).length ≤ maxCount) := by
  unfold request_restart_attempt
  rw [if_neg h0]
  show (if (specWindowedHistory maxInterval hist now).length > maxCount
        then (specWindowedHistory maxInterval hist now, false)
        else (specWindowedHistory maxInterval hist now, true)).2 = _
  by_cases hlen : (specWindowedHistory maxInterval hist now).length > maxCount
  · rw [if_pos hlen, decide_eq_false (by omega)]
  · rw [if_neg hlen, decide_eq_true (by omega)]

/-- With `max_restart_count = 0`, `request_restart_attempt` returns `true`
and leaves the history untouched. -/
theorem request_restart_attempt_zero (maxInterval : Int)
    (hist : List Int) (now : Int) :
    request_restart_attempt 0 maxInterval hist now = (hist, true) := by
  unfold request_restart_attempt
  rw [if_pos rfl]

/-- **C1.** `request_restart_attempt` returns `true` iff
`max_restart_count = 0`, or the history obtained by appending `now` and —
when `max_restart_interval_seconds > 0` — dropping entries older than
`now - max_restart_interval_seconds` has length at most
`max_restart_count`; otherwise it returns `false`. In particular, with
`max_restart_count = 0` it returns `true` for every history. -/
theorem request_restart_attempt_admit_iff
    (maxCount maxInterval : Int) (hist : List Int) (now : Int) :
    ((request_restart_attempt maxCount maxInterval hist now).2 = true ↔
      admitSpec maxCount maxInterval hist now) ∧
    (maxCount = 0 → (request_restart_attempt maxCount maxInterval hist now).2 = true) := by
  by_cases h0 : maxCount = 0
  · subst h0
    rw [request_restart_attempt_zero]
    simp [admitSpec]
  · rw [request_restart_attempt_snd maxCount maxInterval hist now h0]
    simp [admitSpec, h0]

/-- **C10.** In a hosted ("cloud") deployment `should_restart` is `false`
for every platform, every flag combination and every exit code. -/
theorem should_restart_cloud_always_false
    (platform : String) (restart_on_failure : Bool)
    (max_restart_count : Int) (exitcode : Int) :
    should_restart true platform restart_on_failure max_restart_count exitcode = false := by
  unfold should_restart
  simp

/-- Witness for C1 at concrete inputs. -/
theorem request_restart_attempt_admit_iff_witness :
    ((request_restart_attempt 3 60 [100] 110).2 = true ↔ admitSpec 3 60 [100] 110) ∧
    (request_restart_attempt 0 60 [100] 110).2 = true :=
  ⟨(request_restart_attempt_admit_iff 3 60 [100] 110).1,
   (request_restart_attempt_admit_iff 0 60 [100] 110).2 rfl⟩

/-- **C2, counterexample.** The claimed rule "eligible iff
`restartOnFailure` and (non-hosted or SIGKILL exit on linux/darwin)" is
false on the code: on linux, in a non-hosted deployment, with
`restart_on_failure = true` and a clean exit code `0`, the claim's rule
admits a restart while `should_restart` returns `false` (the linux branch
additionally demands the SIGKILL-derived exit code). -/
theorem should_restart_claimC2_false :
    should_restart false "linux" true 3 0 = false ∧
    shouldRestartClaimC2 false "linux" true 0 = true := by
  constructor <;> rfl

/-- **C2, amended.** `should_restart` is `true` iff the deployment is
non-hosted, `restart_on_failure` is set, and — on linux/darwin — the exit
code is the SIGKILL-derived one, while on any other platform
`max_restart_count` is non-zero. -/
theorem should_restart_characterization (is_cloud : Bool) (platform : String)
    (restart_on_failure : Bool) (max_restart_count : Int) (exitcode : Int) :
    should_restart is_cloud platform restart_on_failure max_restart_count exitcode = true ↔
      (is_cloud = false ∧ restart_on_failure = true ∧
        (if platform = "linux" ∨ platform = "darwin"
          then exitcode = -sigkillValue
          else max_restart_count ≠ 0)) := by
  unfold should_restart
  cases is_cloud
  · by_cases hp : platform = "linux" ∨ platform = "darwin"
    · by_cases he : exitcode = -sigkillValue
      · simp [hp, he]
      · simp [hp, he]
    · by_cases h0 : max_restart_count = 0
      · simp [hp, h0]
      · simp [hp, h0]
  · simp

/-- **C8, counterexample.** On a platform that is neither linux nor
darwin, with `max_restart_count = 1 > 0` and `restart_on_failure = true`,
the claim says `should_restart` returns `restart_on_failure = true`; but
in a hosted deployment the code returns `false` (the `is_cloud` gate runs
first), so the claim as stated fails. -/
theorem should_restart_claimC8_false :
    ("win32" ≠ "linux" ∧ "win32" ≠ "darwin" ∧ (0 : Int) < 1) ∧
    should_restart true "win32" true 1 1 = false := by
  refine ⟨⟨?_, ?_, ?_⟩, ?_⟩ <;> decide

/-- **C8, amended.** In a non-hosted deployment, on a platform that is
neither linux nor darwin, `should_restart` returns `restart_on_failure`
when `max_restart_count > 0` and `false` when `max_restart_count = 0`
(unlimited retries without a rate limit are refused there); in a hosted
deployment it returns `false` regardless. -/
theorem should_restart_unattributable_platform (platform : String)
    (restart_on_failure : Bool) (max_restart_count : Int) (exitcode : Int)
    (hp1 : platform ≠ "linux") (hp2 : platform ≠ "darwin") :
    (0 < max_restart_count →
      should_restart false platform restart_on_failure max_restart_count exitcode =
        restart_on_failure) ∧
    (max_restart_count = 0 →
      should_restart false platform restart_on_failure max_restart_count exitcode = false) := by
  have hp : ¬ (platform = "linux" ∨ platform = "darwin") := by
    intro h
    cases h with
    | inl h => exact hp1 h
    | inr h => exact hp2 h
  constructor
  · intro hpos
    unfold should_restart
    simp [hp]
    omega
  · intro h0
    unfold should_restart
    simp [hp, h0]

/-- Witness for the amended C8 at concrete inputs. -/
theorem should_restart_unattributable_platform_witness :
    should_restart false "win32" true 3 1 = true ∧
    should_restart false "win32" true 0 1 = false :=
  ⟨(should_restart_unattributable_platform "win32" true 3 1
      (by decide) (by decide)).1 (by decide),
   (should_restart_unattributable_platform "win32" true 0 1
      (by decide) (by decide)).2 rfl⟩

/-- **C4, counterexample.** A call with `max_restart_count = 0` does not
record the attempt: the code returns early, so the attempt time is not
appended to the history (here the history stays empty). -/
theorem request_restart_attempt_zero_skips_recording :
    (request_restart_attempt 0 60 [] 100).1 = [] ∧
    ¬ ((100 : Int) ∈ (request_restart_attempt 0 60 [] 100).1) := by
  constructor
  · rfl
  · intro h
    simp [request_restart_attempt] at h

/-- **C4, amended.** A call to `request_restart_attempt` records the
attempt exactly when `max_restart_count ≠ 0`: then `now` is a member of
the post-call history (it is appended, and the window filter keeps it);
with `max_restart_count = 0` the function returns early and the history is
unchanged. -/
theorem request_restart_attempt_records (maxCount maxInterval : Int)
    (hist : List Int) (now : Int) :
    (maxCount ≠ 0 → now ∈ (request_restart_attempt maxCount maxInterval hist now).1) ∧
    (maxCount = 0 → (request_restart_attempt maxCount maxInterval hist now).1 = hist) := by
  constructor
  · intro h0
    rw [request_restart_attempt_fst maxCount maxInterval hist now h0]
    unfold specWindowedHistory
    by_cases hI : maxInterval > 0
    · rw [if_pos hI]
      apply List.mem_filter.mpr
      constructor
      · simp
      · simp
        omega
    · rw [if_neg hI]
      simp
  · intro h0
    subst h0
    rw [request_restart_attempt_zero]

/-- With `max_restart_interval_seconds = 0` the history only ever grows:
the i-th call (0-based) of a run starting from `hist` sees
`hist.length + i` previous entries, so it returns
`hist.length + i + 1 ≤ maxCount`. -/
theorem runAttempts_zero_interval (N : Int) (h0 : N ≠ 0) :
    ∀ (ts : List Int) (hist : List Int),
      (runAttempts N 0 hist ts).2 =
        (List.range ts.length).map
          fun (i : Nat) => decide ((hist.length : Int) + (i : Int) + 1 ≤ N)
  | [], hist => by simp [runAttempts]
  | t :: ts, hist => by
    have hfst : (request_restart_attempt N 0 hist t).1 = hist ++ [t] := by
      rw [request_restart_attempt_fst _ _ _ _ h0]
      unfold specWindowedHistory
      rw [if_neg (by omega)]
    have hsnd : (request_restart_attempt N 0 hist t).2 =
        decide ((hist.length : Int) + 1 ≤ N) := by
      rw [request_restart_attempt_snd _ _ _ _ h0]
      unfold specWindowedHistory
      rw [if_neg (by omega), decide_eq_decide]
      simp
    simp only [runAttempts]
    rw [hsnd, hfst, runAttempts_zero_interval N h0 ts (hist ++ [t])]
    rw [List.length_cons, List.range_succ_eq_map, List.map_cons, List.map_map,
      List.cons_eq_cons]
    refine ⟨?_, ?_⟩
    · rw [decide_eq_decide]
      push_cast
      omega
    · apply List.map_congr_left
      intro i _
      simp only [Function.comp_apply]
      rw [decide_eq_decide]
      simp only [List.length_append, List.length_singleton, Nat.succ_eq_add_one]
      push_cast
      omega

/-- **C5.** Sliding-window behaviour of the restart limiter, with
`maxCount = N > 0`. (1) With window `W > 0` and a history of earlier
(hence `≤ t`) attempt times, a call at time `t` admits iff the number of
recorded attempts inside `[t-W, t]`, plus the current one, is at most `N`.
(2) The post-call history holds only times `≥ t - W`, so an attempt that
fell outside the window is discarded from the state and never again
contributes. (3) With `W = 0` every attempt ever made counts: starting
from an empty history, the i-th call (0-based) returns `i + 1 ≤ N`, so
the (N+1)-th call and every later one return `false`. (4) Concretely,
with `N = 3`, `W = 60` and four attempts within 10 seconds, the first
three calls return `true` and the fourth returns `false`. -/
theorem restart_window_policy :
    (∀ (N W : Int) (hist : List Int) (t : Int), 0 < N → 0 < W →
      (∀ x ∈ hist, x ≤ t) →
      ((request_restart_attempt N W hist t).2 = true ↔
        ((hist.filter fun x => decide (t - W ≤ x ∧ x ≤ t)).length + 1 ≤ N))) ∧
    (∀ (N W : Int) (hist : List Int) (t : Int), 0 < N → 0 < W →
      ∀ x ∈ (request_restart_attempt N W hist t).1, t - W ≤ x) ∧
    (∀ (N : Int) (ts : List Int), 0 < N →
      (runAttempts N 0 [] ts).2 =
        (List.range ts.length).map fun (i : Nat) => decide ((i : Int) + 1 ≤ N)) ∧
    ((runAttempts 3 60 [] [100, 103, 106, 109]).2 = [true, true, true, false]) := by
  refine ⟨?_, ?_, ?_, ?_⟩
  · intro N W hist t hN hW hmono
    rw [request_restart_attempt_snd _ _ _ _ (by omega), decide_eq_true_eq]
    unfold specWindowedHistory
    rw [if_pos hW, List.filter_append]
    have hsingle : List.filter (fun x => decide (x ≥ t - W)) [t] = [t] := by
      simp
      omega
    have hcongr : List.filter (fun x => decide (x ≥ t - W)) hist =
        List.filter (fun x => decide (t - W ≤ x ∧ x ≤ t)) hist := by
      apply List.filter_congr
      intro x hx
      rw [decide_eq_decide]
      have := hmono x hx
      constructor
      · intro h
        exact ⟨h, this⟩
      · intro h
        exact h.1
    rw [hsingle, hcongr, List.length_append]
    simp
  · intro N W hist t hN hW x hx
    rw [request_restart_attempt_fst _ _ _ _ (by omega)] at hx
    unfold specWindowedHistory at hx
    rw [if_pos hW] at hx
    have := (List.mem_filter.mp hx).2
    simp at this
    omega
  · intro N ts hN
    rw [runAttempts_zero_interval N (by omega) ts []]
    simp
  · rfl

/-- Witness for C5 at concrete inputs. -/
theorem restart_window_policy_witness :
    ((request_restart_attempt 3 60 [100] 110).2 = true ↔
      (((([100] : List Int).filter fun x =>
        decide (110 - 60 ≤ x ∧ x ≤ 110)).length : Int) + 1 ≤ 3)) ∧
    ((runAttempts 2 0 [] [5, 6, 7]).2 =
      (List.range 3).map fun (i : Nat) => decide ((i : Int) + 1 ≤ 2)) :=
  ⟨restart_window_policy.1 3 60 [100] 110 (by decide) (by decide)
      (by intro x hx; simp at hx; omega),
   restart_window_policy.2.2.1 2 [5, 6, 7] (by decide)⟩

/-- A handle whose OS process is already gone is skipped by the shutdown
loop: `get_child_pids` raises `NoSuchProcess`, the handler swallows it,
no events are issued and the handle is unchanged. -/
theorem closeDescriptor_dead (h : ProcHandle) (hd : h.osAlive = false) :
    closeDescriptor h = (h, []) := by
  unfold closeDescriptor closeDescriptorRaw get_child_pids
  rw [hd]
  simp

/-- After `closeDescriptor`, the handle's OS process is gone. -/
theorem closeDescriptor_post_dead (h : ProcHandle) :
    (closeDescriptor h).1.osAlive = false := by
  cases hh : h.osAlive
  · rw [closeDescriptor_dead h hh]
    exact hh
  · simp [closeDescriptor, closeDescriptorRaw, get_child_pids, hh]

/-- After the shutdown loop, every remaining handle's OS process is
gone. -/
theorem closeAll_post_dead : ∀ (ps : List (Option ProcHandle)) (h : ProcHandle),
    some h ∈ (closeAll ps).1 → h.osAlive = false
  | [], h => by simp [closeAll]
  | none :: rest, h => by
    intro hm
    simp only [closeAll, List.mem_cons] at hm
    rcases hm with hm | hm
    · exact Option.noConfusion hm
    · exact closeAll_post_dead rest h hm
  | some g :: rest, h => by
    intro hm
    simp only [closeAll, List.mem_cons] at hm
    rcases hm with hm | hm
    · rw [Option.some.inj hm]
      exact closeDescriptor_post_dead g
    · exact closeAll_post_dead rest h hm

/-- The shutdown loop over a descriptor set whose processes are all gone
is a no-op that issues no OS actions. -/
theorem closeAll_of_dead : ∀ (ps : List (Option ProcHandle)),
    (∀ h, some h ∈ ps → h.osAlive = false) → closeAll ps = (ps, [])
  | [], _ => rfl
  | none :: rest, hall => by
    have ih := closeAll_of_dead rest (fun h hm => hall h (List.mem_cons_of_mem _ hm))
    simp only [closeAll]
    rw [ih]
  | some g :: rest, hall => by
    have hg := hall g (List.mem_cons_self _ _)
    have ih := closeAll_of_dead rest (fun h hm => hall h (List.mem_cons_of_mem _ hm))
    simp only [closeAll]
    rw [closeDescriptor_dead g hg, ih]
    simp

/-- **C3, counterexample.** `close_api_gracefully` is not guarded by the
process-wide "already stopping" event: the function sets `_stop_event`
but never reads it. On a state whose `_stop_event` is already set and
which still holds a live process, the call still walks the descriptor and
issues termination actions — so it is not the flag that makes a repeated
invocation a no-op. -/
theorem close_api_gracefully_not_guarded :
    (close_api_gracefully ⟨true, [some ⟨1, true, none, [2]⟩]⟩).2 =
      [ShutdownEvent.sigtermChild 2, ShutdownEvent.terminateTop 1,
        ShutdownEvent.joinTop 1] ∧
    (close_api_gracefully ⟨true, [some ⟨1, true, none, [2]⟩]⟩).2 ≠ [] := by
  constructor
  · rfl
  · intro h
    exact List.noConfusion h

/-- **C3, amended.** A second invocation of `close_api_gracefully` after
the first completes is a no-op that issues no OS actions — not because of
a guard (the stop event is set but never consulted by this function) but
because every top-level process has already been terminated, joined and
reaped; a descriptor whose process is absent (`None`) is skipped, and one
whose process is already gone is skipped by swallowing `NoSuchProcess`
without propagating an error. -/
theorem close_api_gracefully_second_call_noop :
    (∀ s : SupervisorState,
      close_api_gracefully (close_api_gracefully s).1 = ((close_api_gracefully s).1, [])) ∧
    (∀ ps : List (Option ProcHandle),
      closeAll (none :: ps) = (none :: (closeAll ps).1, (closeAll ps).2)) ∧
    (∀ h : ProcHandle, h.osAlive = false → closeDescriptor h = (h, [])) := by
  refine ⟨?_, fun ps => rfl, closeDescriptor_dead⟩
  intro s
  have hdead : ∀ h, some h ∈ (closeAll s.procs).1 → h.osAlive = false :=
    fun h hm => closeAll_post_dead s.procs h hm
  show ({ stopEvent := true, procs := (closeAll (closeAll s.procs).1).1 },
        (closeAll (closeAll s.procs).1).2) =
      (({ stopEvent := true, procs := (closeAll s.procs).1 } : SupervisorState),
        ([] : List ShutdownEvent))
  rw [closeAll_of_dead _ hdead]

/-- Witness for the amended C3 at a concrete state. -/
theorem close_api_gracefully_second_call_noop_witness :
    close_api_gracefully
        (close_api_gracefully ⟨false, [some ⟨1, true, none, [2]⟩, none]⟩).1 =
      ((close_api_gracefully ⟨false, [some ⟨1, true, none, [2]⟩, none]⟩).1, []) ∧
    closeDescriptor ⟨1, false, some 0, []⟩ = (⟨1, false, some 0, []⟩, []) :=
  ⟨close_api_gracefully_second_call_noop.1 ⟨false, [some ⟨1, true, none, [2]⟩, none]⟩,
   close_api_gracefully_second_call_noop.2.2 ⟨1, false, some 0, []⟩ rfl⟩

/-- **C6, evaluation at the failing input.** After a keyboard interrupt
observed while waiting on the process, `join_process` runs
`close_api_gracefully` in the `except` handler — but the `finally:` block
then still runs the restart logic. On a platform other than linux/darwin
(where `should_restart` ignores the exit code), a non-hosted descriptor
with `restart_on_failure = true` and `max_restart_count = 3` gets
`should_restart = true` and an admitting `request_restart_attempt`, so it
is relaunched: restart logic is not bypassed. On linux no restart occurs,
but only because the SIGTERM-derived exit code `-15` of the coordinated
shutdown differs from the SIGKILL code `-9` that `should_restart`
demands, not because the interrupt bypassed the restart path. -/
theorem restart_after_interrupt_not_bypassed :
    restart_attempted_after_interrupt false "win32" true 3 60 [] 1 100 = true ∧
    restart_attempted_after_interrupt false "linux" true 3 60 [] (-sigtermValue) 100 = false := by
  constructor <;> rfl

/-- Witness for the amended C4 at concrete inputs. -/
theorem request_restart_attempt_records_witness :
    (100 : Int) ∈ (request_restart_attempt 3 60 [] 100).1 ∧
    (request_restart_attempt 0 60 [] 100).1 = [] :=
  ⟨(request_restart_attempt_records 3 60 [] 100).1 (by decide),
   (request_restart_attempt_records 0 60 [] 100).2 rfl⟩

/-- A record already in a terminal status is excluded by the sweep's
query, so the sweep leaves it untouched. -/
theorem sweepOne_terminal (orphans : List Int) (r : PredictorRecord)
    (ht : r.status = PredictorStatus.complete ∨ r.status = PredictorStatus.error) :
    sweepOne orphans r = r := by
  have hq : predictorQueryMatch r = false := by
    rcases ht with ht | ht <;> simp [predictorQueryMatch, ht]
  simp [sweepOne, hq]

/-- One application of the sweep body is idempotent on every record. -/
theorem sweepOne_idem (orphans : List Int) (r : PredictorRecord) :
    sweepOne orphans (sweepOne orphans r) = sweepOne orphans r := by
  by_cases hq : predictorQueryMatch r = true
  · cases hp : r.processId with
    | none =>
      have hfix : sweepOne orphans r = r := by simp [sweepOne, hq, hp]
      rw [hfix]
      exact hfix
    | some pid =>
      by_cases hm : pid ∈ orphans
      · have h1 : (sweepOne orphans r).status = PredictorStatus.error := by
          simp [sweepOne, hq, hp, hm]
        exact sweepOne_terminal orphans (sweepOne orphans r) (Or.inr h1)
      · have hfix : sweepOne orphans r = r := by simp [sweepOne, hq, hp, hm]
        rw [hfix]
        exact hfix
  · have hfix : sweepOne orphans r = r := by simp [sweepOne, hq]
    rw [hfix]
    exact hfix

/-- **C7, counterexample.** A non-terminal orphaned record whose `data`
already holds an *empty* string under the `'error'` key: the sweep moves
it to status `error` but — since it only tests key presence — leaves the
empty message in place, so no non-empty error message is present after
the sweep, contrary to the claim. -/
theorem sweep_claimC7_false :
    set_error_model_status_by_pids [5]
        [⟨false, PredictorStatus.training, some 5, some [("error", "")]⟩] =
      [⟨false, PredictorStatus.error, some 5, some [("error", "")]⟩] ∧
    hasNonEmptyErrorMessage
        ⟨false, PredictorStatus.error, some 5, some [("error", "")]⟩ = false := by
  constructor <;> rfl

/-- **C7, amended.** For a record matched by the sweep's query
(non-deleted, non-terminal) whose training pid is orphaned: one sweep
sets its status to `error` and ensures an `'error'` entry is present in
its data, attaching the default non-empty message exactly when the key
was absent (a pre-existing `'error'` value, even an empty one, is kept
unchanged); records already in `complete`/`error` are excluded from the
query, so a repeated sweep is a no-op and the transition is applied
exactly once per orphaned record. -/
theorem orphan_sweep_exactly_once :
    (∀ (orphans : List Int) (r : PredictorRecord) (pid : Int),
      predictorQueryMatch r = true → r.processId = some pid → pid ∈ orphans →
      (sweepOne orphans r).status = PredictorStatus.error ∧
      hasErrorKey ((sweepOne orphans r).data.getD []) = true ∧
      (hasErrorKey (r.data.getD []) = false →
        (sweepOne orphans r).data =
          some (r.data.getD [] ++ [("error", orphanErrorMessage)])) ∧
      (hasErrorKey (r.data.getD []) = true →
        (sweepOne orphans r).data = some (r.data.getD []))) ∧
    (∀ (orphans : List Int) (r : PredictorRecord),
      (r.status = PredictorStatus.complete ∨ r.status = PredictorStatus.error) →
      sweepOne orphans r = r) ∧
    (∀ (orphans : List Int) (recs : List PredictorRecord),
      set_error_model_status_by_pids orphans (set_error_model_status_by_pids orphans recs) =
        set_error_model_status_by_pids orphans recs) := by
  refine ⟨?_, sweepOne_terminal, ?_⟩
  · intro orphans r pid hq hp hm
    have hd0 : (match r.data with | some d => d | none => []) = r.data.getD [] := by
      cases r.data <;> rfl
    by_cases hk : hasErrorKey (r.data.getD []) = true
    · refine ⟨?_, ?_, ?_, ?_⟩
      · simp [sweepOne, hq, hp, hm]
      · simp [sweepOne, hq, hp, hm, hd0, hk]
      · intro hcontra
        rw [hk] at hcontra
        exact absurd hcontra (by simp)
      · intro _
        simp [sweepOne, hq, hp, hm, hd0, hk]
    · have hk' : hasErrorKey (r.data.getD []) = false := by
        revert hk
        cases hasErrorKey (r.data.getD []) <;> simp
      have hdata : (sweepOne orphans r).data =
          some (r.data.getD [] ++ [("error", orphanErrorMessage)]) := by
        simp [sweepOne, hq, hp, hm, hd0, hk']
      refine ⟨?_, ?_, ?_, ?_⟩
      · simp [sweepOne, hq, hp, hm]
      · rw [hdata]
        simp [hasErrorKey, List.any_append]
      · intro _
        exact hdata
      · intro hcontra
        rw [hk'] at hcontra
        exact absurd hcontra (by simp)
  · intro orphans recs
    unfold set_error_model_status_by_pids
    rw [List.map_map]
    apply List.map_congr_left
    intro r _
    exact sweepOne_idem orphans r

/-- Witness for the amended C7 at concrete records. -/
theorem orphan_sweep_exactly_once_witness :
    ((sweepOne [5] ⟨false, PredictorStatus.training, some 5, none⟩).status =
        PredictorStatus.error ∧
      hasErrorKey ((sweepOne [5]
        ⟨false, PredictorStatus.training, some 5, none⟩).data.getD []) = true ∧
      (hasErrorKey ((none : Option (List (String × String))).getD []) = false →
        (sweepOne [5] ⟨false, PredictorStatus.training, some 5, none⟩).data =
          some ((none : Option (List (String × String))).getD [] ++
            [("error", orphanErrorMessage)])) ∧
      (hasErrorKey ((none : Option (List (String × String))).getD []) = true →
        (sweepOne [5] ⟨false, PredictorStatus.training, some 5, none⟩).data =
          some ((none : Option (List (String × String))).getD []))) ∧
    sweepOne [] ⟨false, PredictorStatus.complete, some 5, none⟩ =
      ⟨false, PredictorStatus.complete, some 5, none⟩ :=
  ⟨orphan_sweep_exactly_once.1 [5] ⟨false, PredictorStatus.training, some 5, none⟩ 5
      rfl rfl (by decide),
   orphan_sweep_exactly_once.2.1 [] ⟨false, PredictorStatus.complete, some 5, none⟩
      (Or.inl rfl)⟩

/-- The polling loop returns `true` exactly when some check within the
remaining budget sees the port open. -/
theorem waitLoop_iff (listens : Nat → Bool) :
    ∀ (fuel k : Nat),
      waitLoop listens k fuel = true ↔ ∃ j, j ≤ fuel ∧ listens (k + j) = true
  | 0, k => by
    constructor
    · intro h
      exact ⟨0, Nat.le_refl 0, h⟩
    · rintro ⟨j, hj, h⟩
      have hj0 : j = 0 := Nat.le_zero.mp hj
      subst hj0
      exact h
  | fuel + 1, k => by
    by_cases h : listens k = true
    · simp only [waitLoop, h, if_true]
      constructor
      · intro _
        exact ⟨0, Nat.zero_le _, h⟩
      · intro _
        trivial
    · simp only [waitLoop, h, if_false]
      constructor
      · intro hw
        obtain ⟨j, hj, hl⟩ := (waitLoop_iff listens fuel (k + 1)).mp hw
        refine ⟨j + 1, by omega, ?_⟩
        have harith : k + 1 + j = k + (j + 1) := by omega
        rwa [harith] at hl
      · rintro ⟨j, hj, hl⟩
        cases j with
        | zero => exact absurd hl h
        | succ j =>
          apply (waitLoop_iff listens fuel (k + 1)).mpr
          refine ⟨j, by omega, ?_⟩
          have harith : k + 1 + j = k + (j + 1) := by omega
          rwa [harith]

/-- **C9.** The health gate polls on a half-second interval for at most
60 seconds (`120 · 500 ms = 60 · 1000 ms`): it returns `true` iff one of
the checks, the immediate one or one of the at most 120 re-polls, sees
the port open. A `false` outcome only produces an error log — the
handler issues no terminate action — and the descriptor set that receives
monitoring (`gather_apis`) is chosen by `need_to_run` alone, so a
descriptor that failed its health check remains monitored under the same
restart policy. -/
theorem health_gate_not_fatal :
    (apiStartMaxExtraPolls * apiStartPollIntervalMs = apiStartTimeoutSeconds * 1000) ∧
    (∀ listens : Nat → Bool,
      wait_api_start listens = true ↔
        ∃ k, k ≤ apiStartMaxExtraPolls ∧ listens k = true) ∧
    (∀ (name : String) (port : Int) (started : Bool),
      (∀ a ∈ handle_api_start_result name port started,
        ∀ n, a ≠ StartupAction.terminateApi n) ∧
      (started = false → handle_api_start_result name port started =
        [StartupAction.logCantStart name port])) ∧
    (∀ (ds : List ApiDescriptor) (d : ApiDescriptor),
      d ∈ gather_apis_selection ds ↔ d ∈ ds ∧ d.need_to_run = true) := by
  refine ⟨rfl, ?_, ?_, ?_⟩
  · intro listens
    unfold wait_api_start
    rw [waitLoop_iff listens apiStartMaxExtraPolls 0]
    constructor
    · rintro ⟨j, hj, hl⟩
      exact ⟨j, hj, by simpa using hl⟩
    · rintro ⟨k, hk, hl⟩
      exact ⟨k, hk, by simpa using hl⟩
  · intro name port started
    constructor
    · intro a ha n
      cases started <;> simp [handle_api_start_result] at ha <;> simp [ha]
    · intro hf
      subst hf
      rfl
  · intro ds d
    unfold gather_apis_selection
    rw [List.mem_filter]

/-- Witness for C9 at a concrete polling trace. -/
theorem health_gate_not_fatal_witness :
    (wait_api_start (fun k => decide (k = 3)) = true ↔
      ∃ k, k ≤ apiStartMaxExtraPolls ∧ decide (k = 3) = true) ∧
    handle_api_start_result "http" 47334 false =
      [StartupAction.logCantStart "http" 47334] :=
  ⟨health_gate_not_fatal.2.1 (fun k => decide (k = 3)),
   (health_gate_not_fatal.2.2.1 "http" 47334 false).2 rfl⟩

end MindsDB
